import Mathlib

/-!
Shallow embedding of `src/main.go` (a small HTTP gateway proxying file
operations to Google Drive).  Each Go handler becomes a pure Lean function
from the request data plus a `DriveEnv` — an oracle giving the outcome of
every remote Drive operation — to the ordered trace of remote calls the
handler issues together with the JSON/stream response it returns.
-/

namespace GDrive

/-- Mirrors the fields of `drive.File` that the program reads
(`Fields("files(id, name, webViewLink)")`). -/
structure RemoteFile where
  id : String
  name : String
  webViewLink : String
  deriving Repr, DecidableEq

/-- The body of a streaming download response from the remote store:
its `Content-Type` header and its byte stream. -/
structure DownloadResponse where
  contentType : String
  body : List Nat
  deriving Repr, DecidableEq

/-- The JSON (or stream) payload a handler returns. -/
inductive Payload where
  /-- `{"error": msg}` -/
  | err (msg : String)
  /-- `{"message": ..., "data": {"file_id":..., "file_name":..., "file_url":...}}` -/
  | fileData (message fileId fileName fileUrl : String)
  /-- `{"message": ..., "data": {"folder_id":..., "files": [...]}}` -/
  | listData (message folderId : String) (files : List RemoteFile)
  /-- `{"message": ..., "file_id": ...}` -/
  | deleteData (message fileId : String)
  /-- `c.Stream(200, contentType, body)` that ran to completion. -/
  | stream (contentType : String) (body : List Nat)
  /-- `c.Stream` whose copy failed midway: the 200 header and content type
  were already sent, the body is incomplete. -/
  | streamAborted (contentType : String)
  deriving Repr, DecidableEq

/-- An HTTP response: status code plus payload. -/
structure Response where
  status : Nat
  payload : Payload
  deriving Repr, DecidableEq

/-- One outbound call a handler makes, in program order.  `auth` is the
`ServiceAccount` credential load, `newService` the `drive.NewService`
construction; the rest are the remote Drive operations. -/
inductive Call where
  | auth
  | newService
  | list (q : String)
  | delete (id : String)
  | create (name mimeType : String) (content : List Nat) (parentId : String)
  | get (id : String)
  | download (id : String)
  deriving Repr, DecidableEq

def Call.isDelete : Call → Bool
  | .delete _ => true
  | _ => false

def Call.isCreate : Call → Bool
  | .create _ _ _ _ => true
  | _ => false

def Call.isListCall : Call → Bool
  | .list _ => true
  | _ => false

/-- The remote store, as an oracle: the outcome of each operation the
program can invoke.  `newService` models `drive.NewService` (which the
handlers error-check); the five Drive operations return either a result or
an error, exactly the shape surfaced to the Go code by `.Do()` /
`.Download()`. -/
structure DriveEnv where
  newService : Except Unit Unit
  filesList : String → Except Unit (List RemoteFile)
  filesDelete : String → Except Unit Unit
  filesCreate : String → String → List Nat → String → Except Unit RemoteFile
  filesGet : String → Except Unit RemoteFile
  filesDownload : String → Except Unit DownloadResponse

/-- Shorthand for `c.JSON(status, map[string]string{"error": msg})`. -/
def errorJSON (status : Nat) (msg : String) : Response :=
  ⟨status, .err msg⟩

/-! ## Credential loader (`ServiceAccount`) -/

/-- The anonymous struct `ServiceAccount` unmarshals into:
`client_email` and `private_key`. -/
structure SecretFields where
  email : String
  privateKey : String
  deriving Repr, DecidableEq

/-- The `jwt.Config` the loader builds. -/
structure JWTConfig where
  email : String
  privateKey : String
  scopes : List String
  tokenURL : String
  deriving Repr, DecidableEq

def driveScope : String := "https://www.googleapis.com/auth/drive"

def googleJWTTokenURL : String := "https://oauth2.googleapis.com/token"

/-- `ServiceAccount`: reads the secret file and builds a `jwt.Config`
client.  `os.ReadFile` failure hits `log.Fatal` — modelled as `none`
(process termination, no value returned).  The `json.Unmarshal` error is
discarded by the Go code, so an unparseable secret leaves the zero-valued
struct and the loader still returns a client.  `readResult` is the outcome
of `os.ReadFile`; `unmarshal` is the external JSON decoder (`none` =
decode error). -/
def ServiceAccount (readResult : Except Unit (List Nat))
    (unmarshal : List Nat → Option SecretFields) : Option JWTConfig :=
  match readResult with
  | .error _ => none
  | .ok b =>
    let s : SecretFields :=
      match unmarshal b with
      | some v => v
      | none => ⟨"", ""⟩
    some ⟨s.email, s.privateKey, [driveScope], googleJWTTokenURL⟩

/-! ## Upload handler -/

/-- The multipart file part: `*multipart.FileHeader`.  `openResult` is the
outcome of `file.Open()`. -/
structure FileHeader where
  filename : String
  contentType : String
  openResult : Except Unit (List Nat)

/-- An upload request: the `folder` form value and the outcome of
`c.FormFile("file")`. -/
structure UploadRequest where
  folder : String
  formFile : Except Unit FileHeader

/-- `createFile`: builds the `drive.File` and calls
`service.Files.Create(f).Media(content).Do()`. -/
def createFile (env : DriveEnv) (name mimeType : String) (content : List Nat)
    (parentId : String) : Except Unit RemoteFile :=
  env.filesCreate name mimeType content parentId

/-- The tail of `uploadFileHandler` from the `createFile` call on: create
the file, then re-fetch it by id for its web view link. -/
def uploadCreateStep (env : DriveEnv) (file : FileHeader) (src : List Nat)
    (folderId : String) (t : List Call) : List Call × Response :=
  let t1 := t ++ [Call.create file.filename file.contentType src folderId]
  match createFile env file.filename file.contentType src folderId with
  | .error _ => (t1, errorJSON 500 "Failed to upload file to Google Drive")
  | .ok uploadedFile =>
    let t2 := t1 ++ [Call.get uploadedFile.id]
    match env.filesGet uploadedFile.id with
    | .error _ => (t2, errorJSON 500 "Failed to get file metadata from Google Drive")
    | .ok getFile =>
      (t2, ⟨200, .fileData "File successfully uploaded"
              getFile.id getFile.name getFile.webViewLink⟩)

/-- `uploadFileHandler`: validate `folder` and the file part, open the
stream, authenticate, search by name, delete the first match if any,
create, re-fetch.  Returns the ordered call trace and the response. -/
def uploadFileHandler (env : DriveEnv) (req : UploadRequest) : List Call × Response :=
  if req.folder = "" then
    ([], errorJSON 400 "Folder ID is required")
  else
    match req.formFile with
    | .error _ => ([], errorJSON 400 "Failed to read file from request")
    | .ok file =>
      match file.openResult with
      | .error _ => ([], errorJSON 500 "Failed to open file")
      | .ok src =>
        let t0 := [Call.auth, Call.newService]
        match env.newService with
        | .error _ => (t0, errorJSON 500 "Failed to create Google Drive service")
        | .ok _ =>
          let query := "name='" ++ file.filename ++ "'"
          let t1 := t0 ++ [Call.list query]
          match env.filesList query with
          | .error _ => (t1, errorJSON 500 "Failed to list files in Google Drive")
          | .ok files =>
            match files with
            | [] => uploadCreateStep env file src req.folder t1
            | first :: _ =>
              let t2 := t1 ++ [Call.delete first.id]
              match env.filesDelete first.id with
              | .error _ => (t2, errorJSON 500 "Failed to delete file from Google Drive")
              | .ok _ => uploadCreateStep env file src req.folder t2

/-! ## List handler -/

/-- `listFilesHandler`: validate the `folder` query parameter,
authenticate, list the folder's children. -/
def listFilesHandler (env : DriveEnv) (folderId : String) : List Call × Response :=
  if folderId = "" then
    ([], errorJSON 400 "Folder ID is required")
  else
    let t0 := [Call.auth, Call.newService]
    match env.newService with
    | .error _ => (t0, errorJSON 500 "Failed to create Google Drive service")
    | .ok _ =>
      let query := "'" ++ folderId ++ "' in parents"
      let t1 := t0 ++ [Call.list query]
      match env.filesList query with
      | .error _ => (t1, errorJSON 500 "Failed to list files in Google Drive")
      | .ok files =>
        (t1, ⟨200, .listData "Files successfully retrieved" folderId files⟩)

/-! ## Download handler -/

/-- Result of `getFileHandler`: the call trace, the response, and whether
the download response body was released (`defer file.Body.Close()`).
`released = none` means no stream was ever acquired; `released = some b`
means a stream was acquired and `b` says whether it was closed. -/
structure DownloadOutcome where
  calls : List Call
  response : Response
  released : Option Bool
  deriving Repr, DecidableEq

/-- `getFileHandler`: validate the `fileId` path parameter, authenticate,
call `srv.Files.Get(fileId).Download()`, then stream the body to the
client.  `defer file.Body.Close()` is registered immediately after the
error check, so on every path past a successful download the body is
closed; `transferOk` says whether the `c.Stream` copy ran to completion
or failed midway. -/
def getFileHandler (env : DriveEnv) (fileId : String) (transferOk : Bool) : DownloadOutcome :=
  if fileId = "" then
    ⟨[], errorJSON 400 "File ID is required", none⟩
  else
    let t0 := [Call.auth, Call.newService]
    match env.newService with
    | .error _ => ⟨t0, errorJSON 500 "Failed to create Google Drive service", none⟩
    | .ok _ =>
      let t1 := t0 ++ [Call.download fileId]
      match env.filesDownload fileId with
      | .error _ => ⟨t1, errorJSON 500 "Failed to get file from Google Drive", none⟩
      | .ok file =>
        if transferOk then
          ⟨t1, ⟨200, .stream file.contentType file.body⟩, some true⟩
        else
          ⟨t1, ⟨200, .streamAborted file.contentType⟩, some true⟩

/-! ## Metadata handler -/

/-- The JSON request body of the metadata endpoint. -/
structure MetadataRequestBody where
  fileID : String
  fileName : String
  deriving Repr, DecidableEq

/-- `getFileMetadataHandler`: bind the JSON body (`bindResult` is the
outcome of `c.Bind`), authenticate, then: non-empty `file_id` → get by id;
else non-empty `file_name` → search by exact name, 404 on zero matches,
first match otherwise; else 400. -/
def getFileMetadataHandler (env : DriveEnv)
    (bindResult : Except Unit MetadataRequestBody) : List Call × Response :=
  match bindResult with
  | .error _ => ([], errorJSON 400 "Invalid request body")
  | .ok body =>
    let t0 := [Call.auth, Call.newService]
    match env.newService with
    | .error _ => (t0, errorJSON 500 "Failed to create Google Drive service")
    | .ok _ =>
      if body.fileID ≠ "" then
        let t1 := t0 ++ [Call.get body.fileID]
        match env.filesGet body.fileID with
        | .error _ => (t1, errorJSON 500 "Failed to get file metadata from Google Drive")
        | .ok file =>
          (t1, ⟨200, .fileData "File metadata successfully retrieved"
                  file.id file.name file.webViewLink⟩)
      else if body.fileName ≠ "" then
        let query := "name='" ++ body.fileName ++ "'"
        let t1 := t0 ++ [Call.list query]
        match env.filesList query with
        | .error _ => (t1, errorJSON 500 "Failed to list files in Google Drive")
        | .ok files =>
          match files with
          | [] => (t1, errorJSON 404 "File not found")
          | first :: _ =>
            (t1, ⟨200, .fileData "File metadata successfully retrieved"
                    first.id first.name first.webViewLink⟩)
      else
        (t0, errorJSON 400 "File ID or File Name is required")

/-! ## Delete handler -/

/-- `deleteFileHandler`: validate the `fileId` path parameter,
authenticate, delete by id, confirm with the id. -/
def deleteFileHandler (env : DriveEnv) (fileId : String) : List Call × Response :=
  if fileId = "" then
    ([], errorJSON 400 "File ID is required")
  else
    let t0 := [Call.auth, Call.newService]
    match env.newService with
    | .error _ => (t0, errorJSON 500 "Failed to create Google Drive service")
    | .ok _ =>
      let t1 := t0 ++ [Call.delete fileId]
      match env.filesDelete fileId with
      | .error _ => (t1, errorJSON 500 "Failed to delete file from Google Drive")
      | .ok _ => (t1, ⟨200, .deleteData "File successfully deleted" fileId⟩)

/-! ## Concrete fixtures used by the witnesses -/

/-- A remote file that already exists under the name `a.txt`. -/
def fileA : RemoteFile := ⟨"fid-1", "a.txt", "https://drive/link1"⟩

/-- A concrete remote-store oracle: `a.txt` already exists, every
operation succeeds, creation yields id `new-1`, and a get-by-id echoes the
requested id with name `b.txt`. -/
def envW : DriveEnv where
  newService := .ok ()
  filesList := fun q => if q = "name='a.txt'" then .ok [fileA] else .ok []
  filesDelete := fun _ => .ok ()
  filesCreate := fun n _ _ _ => .ok ⟨"new-1", n, "https://drive/linknew"⟩
  filesGet := fun i => .ok ⟨i, "b.txt", "https://drive/linkg"⟩
  filesDownload := fun _ => .ok ⟨"text/plain", [104, 105]⟩

/-- An uploaded file part named like the existing remote file. -/
def fhA : FileHeader := ⟨"a.txt", "text/plain", .ok [1, 2]⟩

/-- An uploaded file part whose name matches nothing remote. -/
def fhB : FileHeader := ⟨"b.txt", "text/plain", .ok [7]⟩

/-- A JSON decoder that always fails: a malformed secret file. -/
def uBad : List Nat → Option SecretFields := fun _ => none

/-! ## Claims -/

/-- C7: `ServiceAccount` terminates the process (returns `none`) exactly
when reading the secret file fails; any readable secret — including one
the JSON decoder rejects — yields a client, because the `json.Unmarshal`
error is discarded. -/
theorem serviceAccount_fatal_iff_unreadable (r : Except Unit (List Nat))
    (u : List Nat → Option SecretFields) (b : List Nat) :
    (ServiceAccount r u = none ↔ r = .error ()) ∧
    (ServiceAccount (.ok b) u).isSome = true := by
  refine ⟨⟨fun h => ?_, fun h => ?_⟩, ?_⟩
  · cases r with
    | error e => rfl
    | ok c => simp [ServiceAccount] at h
  · subst h; rfl
  · simp [ServiceAccount]

/-- Witness for C7 at a concrete unreadable file and a concrete malformed
secret. -/
theorem serviceAccount_fatal_iff_unreadable_witness :
    ServiceAccount (.error ()) uBad = none ∧
    (ServiceAccount (.ok []) uBad).isSome = true :=
  ⟨(serviceAccount_fatal_iff_unreadable (.error ()) uBad []).1.mpr rfl,
   (serviceAccount_fatal_iff_unreadable (.error ()) uBad []).2⟩

/-- C9: a metadata request whose body cannot be bound as JSON gets
HTTP 400 with error "Invalid request body", and no remote call is made —
`c.Bind` is checked before the credential load and the Drive service are
touched. -/
theorem metadata_unbindable_body_400_no_calls (env : DriveEnv) :
    getFileMetadataHandler env (.error ()) =
      ([], ⟨400, .err "Invalid request body"⟩) := rfl

/-- C10: download and delete with an empty `fileId` path parameter each
return HTTP 400 with an empty call trace — no remote call, not even the
credential load. -/
theorem empty_fileId_400_before_any_call (env : DriveEnv) (transferOk : Bool) :
    getFileHandler env "" transferOk =
      ⟨[], ⟨400, .err "File ID is required"⟩, none⟩ ∧
    deleteFileHandler env "" =
      ([], ⟨400, .err "File ID is required"⟩) :=
  ⟨rfl, rfl⟩

/-- C3: an upload with an empty `folder` field, an upload whose file part
cannot be read from the request, and a list request with an empty `folder`
parameter each return HTTP 400 with an empty call trace — no
authentication and no List/Delete/Create/Get call. -/
theorem missing_required_input_400_no_calls (env : DriveEnv) :
    (∀ req : UploadRequest, req.folder = "" →
      uploadFileHandler env req = ([], ⟨400, .err "Folder ID is required"⟩)) ∧
    (∀ req : UploadRequest, ¬ req.folder = "" → req.formFile = .error () →
      uploadFileHandler env req =
        ([], ⟨400, .err "Failed to read file from request"⟩)) ∧
    listFilesHandler env "" = ([], ⟨400, .err "Folder ID is required"⟩) := by
  refine ⟨fun req h => ?_, fun req h hf => ?_, rfl⟩
  · simp [uploadFileHandler, h, errorJSON]
  · simp [uploadFileHandler, h, hf, errorJSON]

/-- Witness for C3: the three 400 cases at concrete requests against the
concrete store. -/
theorem missing_required_input_400_no_calls_witness :
    uploadFileHandler envW ⟨"", .ok fhA⟩ =
      ([], ⟨400, .err "Folder ID is required"⟩) ∧
    uploadFileHandler envW ⟨"folder1", .error ()⟩ =
      ([], ⟨400, .err "Failed to read file from request"⟩) ∧
    listFilesHandler envW "" = ([], ⟨400, .err "Folder ID is required"⟩) :=
  ⟨(missing_required_input_400_no_calls envW).1 ⟨"", .ok fhA⟩ rfl,
   (missing_required_input_400_no_calls envW).2.1 ⟨"folder1", .error ()⟩
     (by decide) rfl,
   (missing_required_input_400_no_calls envW).2.2⟩

/-- The calls `uploadCreateStep` appends to `t`: a create call first,
then possibly a get call; never a delete. -/
lemma uploadCreateStep_fst (env : DriveEnv) (file : FileHeader) (src : List Nat)
    (folderId : String) (t : List Call) :
    ∃ tail, (uploadCreateStep env file src folderId t).1 =
        t ++ Call.create file.filename file.contentType src folderId :: tail ∧
      tail.filter Call.isDelete = [] := by
  unfold uploadCreateStep createFile
  rcases h : env.filesCreate file.filename file.contentType src folderId with e | uf
  · exact ⟨[], by simp [h], rfl⟩
  · rcases hg : env.filesGet uf.id with e2 | gf
    · exact ⟨[Call.get uf.id], by simp [h, hg], rfl⟩
    · exact ⟨[Call.get uf.id], by simp [h, hg], rfl⟩

/-- C1: when the name-search returns at least one match, the upload
handler issues exactly one delete call (the whole trace filters to a
single delete), that delete targets the id of the first match, and it
occurs before any create call (the trace up to the first create already
contains it). -/
theorem upload_single_delete_of_first_match (env : DriveEnv) (req : UploadRequest)
    (file : FileHeader) (src : List Nat) (first : RemoteFile) (rest : List RemoteFile)
    (hfolder : ¬ req.folder = "")
    (hfile : req.formFile = .ok file)
    (hopen : file.openResult = .ok src)
    (hsrv : env.newService = .ok ())
    (hlist : env.filesList ("name='" ++ file.filename ++ "'") = .ok (first :: rest)) :
    (uploadFileHandler env req).1.filter Call.isDelete = [Call.delete first.id] ∧
    ((uploadFileHandler env req).1.takeWhile (fun c => ! c.isCreate)).filter
        Call.isDelete = [Call.delete first.id] := by
  simp only [uploadFileHandler, if_neg hfolder, hfile, hopen, hsrv, hlist]
  rcases hdel : env.filesDelete first.id with e | u
  · simp [Call.isDelete, Call.isCreate, List.takeWhile, List.filter]
  · obtain ⟨tail, htr, hfil⟩ := uploadCreateStep_fst env file src req.folder
      ([Call.auth, Call.newService,
        Call.list ("name='" ++ file.filename ++ "'")] ++ [Call.delete first.id])
    simp only [List.cons_append, List.nil_append] at htr
    simp [htr, Call.isDelete, Call.isCreate, List.takeWhile, List.filter, hfil]

/-- Witness for C1: uploading `a.txt` while `a.txt` already exists
remotely deletes exactly the existing file `fid-1`, before the create. -/
theorem upload_single_delete_of_first_match_witness :
    (uploadFileHandler envW ⟨"folder1", .ok fhA⟩).1.filter Call.isDelete =
      [Call.delete fileA.id] ∧
    ((uploadFileHandler envW ⟨"folder1", .ok fhA⟩).1.takeWhile
        (fun c => ! c.isCreate)).filter Call.isDelete = [Call.delete fileA.id] :=
  upload_single_delete_of_first_match envW ⟨"folder1", .ok fhA⟩ fhA [1, 2] fileA []
    (by decide) rfl rfl rfl (by simp [envW, fhA])

/-- C2: when the name-search returns no match and the remaining remote
calls succeed, no delete call appears in the trace, and the 200 response
carries the re-fetched file's id, the uploaded file's name, and the
re-fetched link — non-empty under the remote store's contract. -/
theorem upload_no_match_no_delete (env : DriveEnv) (req : UploadRequest)
    (file : FileHeader) (src : List Nat) (u g : RemoteFile)
    (hfolder : ¬ req.folder = "")
    (hfile : req.formFile = .ok file)
    (hopen : file.openResult = .ok src)
    (hsrv : env.newService = .ok ())
    (hlist : env.filesList ("name='" ++ file.filename ++ "'") = .ok [])
    (hcreate : env.filesCreate file.filename file.contentType src req.folder = .ok u)
    (hget : env.filesGet u.id = .ok g)
    (hgid : ¬ g.id = "")
    (hgname : g.name = file.filename)
    (hgurl : ¬ g.webViewLink = "") :
    (uploadFileHandler env req).1.filter Call.isDelete = [] ∧
    (uploadFileHandler env req).2 =
      ⟨200, .fileData "File successfully uploaded" g.id file.filename g.webViewLink⟩ ∧
    ¬ g.id = "" ∧ ¬ g.webViewLink = "" := by
  simp only [uploadFileHandler, if_neg hfolder, hfile, hopen, hsrv, hlist]
  simp [uploadCreateStep, createFile, hcreate, hget, hgname,
    Call.isDelete, List.filter, hgid, hgurl]

/-- Witness for C2: uploading `b.txt` (no remote match) deletes nothing
and answers 200 with the re-fetched id `new-1`, the name `b.txt`, and the
re-fetched link. -/
theorem upload_no_match_no_delete_witness :
    (uploadFileHandler envW ⟨"folder1", .ok fhB⟩).1.filter Call.isDelete = [] ∧
    (uploadFileHandler envW ⟨"folder1", .ok fhB⟩).2 =
      ⟨200, .fileData "File successfully uploaded" "new-1" fhB.filename
        "https://drive/linkg"⟩ ∧
    ¬ ("new-1" : String) = "" ∧ ¬ ("https://drive/linkg" : String) = "" :=
  upload_no_match_no_delete envW ⟨"folder1", .ok fhB⟩ fhB [7]
    ⟨"new-1", "b.txt", "https://drive/linknew"⟩ ⟨"new-1", "b.txt", "https://drive/linkg"⟩
    (by decide) rfl rfl rfl (by simp [envW, fhB]) rfl rfl
    (by decide) rfl (by decide)

/-- C4: metadata precedence.  With a non-empty `file_id` the handler
never issues a name-search (no list call in the trace), answers only 500
or 200 — never 404 — and maps any remote Get failure to the generic 500.
With an empty `file_id` and non-empty `file_name` it searches by exact
name: list failure → 500, zero matches → 404, otherwise 200 with the
first match.  With both fields empty it answers 400. -/
theorem metadata_precedence (env : DriveEnv) (body : MetadataRequestBody)
    (hsrv : env.newService = .ok ()) :
    (¬ body.fileID = "" →
      (getFileMetadataHandler env (.ok body)).1.filter Call.isListCall = [] ∧
      ((getFileMetadataHandler env (.ok body)).2.status = 500 ∨
        (getFileMetadataHandler env (.ok body)).2.status = 200) ∧
      (env.filesGet body.fileID = .error () →
        (getFileMetadataHandler env (.ok body)).2 =
          ⟨500, .err "Failed to get file metadata from Google Drive"⟩)) ∧
    (body.fileID = "" → ¬ body.fileName = "" →
      (env.filesList ("name='" ++ body.fileName ++ "'") = .error () →
        (getFileMetadataHandler env (.ok body)).2 =
          ⟨500, .err "Failed to list files in Google Drive"⟩) ∧
      (env.filesList ("name='" ++ body.fileName ++ "'") = .ok [] →
        (getFileMetadataHandler env (.ok body)).2 = ⟨404, .err "File not found"⟩) ∧
      (∀ first rest,
        env.filesList ("name='" ++ body.fileName ++ "'") = .ok (first :: rest) →
        (getFileMetadataHandler env (.ok body)).2 =
          ⟨200, .fileData "File metadata successfully retrieved"
            first.id first.name first.webViewLink⟩)) ∧
    (body.fileID = "" → body.fileName = "" →
      (getFileMetadataHandler env (.ok body)).2 =
        ⟨400, .err "File ID or File Name is required"⟩) := by
  refine ⟨fun hid => ?_, fun hid hname => ⟨fun hl => ?_, fun hl => ?_, fun f r hl => ?_⟩,
    fun hid hname => ?_⟩
  · simp only [getFileMetadataHandler, hsrv, if_pos hid]
    rcases hg : env.filesGet body.fileID with e | f
    · exact ⟨by simp [Call.isListCall, List.filter], Or.inl rfl,
        fun _ => by simp [errorJSON]⟩
    · refine ⟨by simp [Call.isListCall, List.filter], Or.inr rfl, fun he => ?_⟩
      simp at he
  · simp [getFileMetadataHandler, hsrv, hid, hname, hl, errorJSON]
  · simp [getFileMetadataHandler, hsrv, hid, hname, hl, errorJSON]
  · simp [getFileMetadataHandler, hsrv, hid, hname, hl]
  · simp [getFileMetadataHandler, hsrv, hid, hname, errorJSON]

/-- Witness for C4: a lookup by `file_id = "X"` against the concrete
store issues no name-search. -/
theorem metadata_precedence_witness :
    (getFileMetadataHandler envW (.ok ⟨"X", ""⟩)).1.filter Call.isListCall = [] :=
  ((metadata_precedence envW ⟨"X", ""⟩ rfl).1 (by decide)).1

/-- C5: a metadata lookup by non-empty `file_id` whose remote Get
succeeds answers 200 and echoes the requested id in `file_id` — the
handler returns the remote file's `Id`, which equals the requested id by
the remote Get contract. -/
theorem metadata_by_id_echoes_requested_id (env : DriveEnv)
    (body : MetadataRequestBody) (f : RemoteFile)
    (hsrv : env.newService = .ok ())
    (hid : ¬ body.fileID = "")
    (hget : env.filesGet body.fileID = .ok f)
    (hecho : f.id = body.fileID) :
    (getFileMetadataHandler env (.ok body)).2 =
      ⟨200, .fileData "File metadata successfully retrieved"
        body.fileID f.name f.webViewLink⟩ := by
  simp [getFileMetadataHandler, hsrv, hid, hget, hecho]

/-- Witness for C5: looking up `file_id = "X"` against the concrete store
answers 200 with `file_id = "X"`. -/
theorem metadata_by_id_echoes_requested_id_witness :
    (getFileMetadataHandler envW (.ok ⟨"X", ""⟩)).2 =
      ⟨200, .fileData "File metadata successfully retrieved"
        "X" "b.txt" "https://drive/linkg"⟩ :=
  metadata_by_id_echoes_requested_id envW ⟨"X", ""⟩
    ⟨"X", "b.txt", "https://drive/linkg"⟩ rfl (by decide) rfl rfl

/-- C6: when the remote Download succeeds, a completed transfer streams
exactly the remote body with exactly the remote content type; a transfer
that fails midway has already sent the remote content type; and in both
cases the acquired response stream is released (`defer file.Body.Close()`
runs on every return path after the error check). -/
theorem download_streams_remote_and_releases (env : DriveEnv) (fileId : String)
    (d : DownloadResponse) (transferOk : Bool)
    (hid : ¬ fileId = "")
    (hsrv : env.newService = .ok ())
    (hdl : env.filesDownload fileId = .ok d) :
    (transferOk = true →
      (getFileHandler env fileId transferOk).response =
        ⟨200, .stream d.contentType d.body⟩) ∧
    (transferOk = false →
      (getFileHandler env fileId transferOk).response =
        ⟨200, .streamAborted d.contentType⟩) ∧
    (getFileHandler env fileId transferOk).released = some true := by
  cases transferOk <;>
    simp [getFileHandler, hid, hsrv, hdl]

/-- Witness for C6: downloading `X` from the concrete store streams its
two bytes as `text/plain` and releases the stream. -/
theorem download_streams_remote_and_releases_witness :
    (getFileHandler envW "X" true).response =
      ⟨200, .stream "text/plain" [104, 105]⟩ ∧
    (getFileHandler envW "X" true).released = some true :=
  ⟨(download_streams_remote_and_releases envW "X" ⟨"text/plain", [104, 105]⟩ true
      (by decide) rfl rfl).1 rfl,
   (download_streams_remote_and_releases envW "X" ⟨"text/plain", [104, 105]⟩ true
      (by decide) rfl rfl).2.2⟩

/-- C8: every name-search and folder-listing query is built by direct
string interpolation of the user-supplied value — the upload and
metadata-by-name handlers send exactly `name='N'` and the list handler
sends exactly `'F' in parents`, with no escaping; consequently a value
containing a single quote changes the structure of the query, as the last
conjunct exhibits: the one name `a' or name='b` produces a query with two
name clauses. -/
theorem queries_built_by_direct_interpolation (env : DriveEnv) :
    (∀ (req : UploadRequest) (file : FileHeader) (src : List Nat),
      ¬ req.folder = "" → req.formFile = .ok file → file.openResult = .ok src →
      env.newService = .ok () →
      Call.list ("name='" ++ file.filename ++ "'") ∈ (uploadFileHandler env req).1) ∧
    (∀ folderId : String, ¬ folderId = "" → env.newService = .ok () →
      Call.list ("'" ++ folderId ++ "' in parents") ∈ (listFilesHandler env folderId).1) ∧
    (∀ body : MetadataRequestBody, body.fileID = "" → ¬ body.fileName = "" →
      env.newService = .ok () →
      Call.list ("name='" ++ body.fileName ++ "'") ∈
        (getFileMetadataHandler env (.ok body)).1) ∧
    "name='" ++ "a' or name='b" ++ "'" = "name='a' or name='b'" := by
  refine ⟨fun req file src hfolder hfile hopen hsrv => ?_,
    fun folderId hf hsrv => ?_, fun body hid hname hsrv => ?_, rfl⟩
  · simp only [uploadFileHandler, if_neg hfolder, hfile, hopen, hsrv]
    rcases hq : env.filesList ("name='" ++ file.filename ++ "'") with e | files
    · simp
    · rcases files with _ | ⟨first, rest⟩
      · rcases hc : env.filesCreate file.filename file.contentType src req.folder
            with e | uf
        · simp [uploadCreateStep, createFile, hc]
        · rcases hg : env.filesGet uf.id with e2 | gf <;>
            simp [uploadCreateStep, createFile, hc, hg]
      · rcases hdel : env.filesDelete first.id with e | u
        · simp [hdel]
        · rcases hc : env.filesCreate file.filename file.contentType src req.folder
              with e | uf
          · simp [uploadCreateStep, createFile, hc, hdel]
          · rcases hg : env.filesGet uf.id with e2 | gf <;>
              simp [uploadCreateStep, createFile, hc, hg, hdel]
  · simp only [listFilesHandler, if_neg hf, hsrv]
    rcases hq : env.filesList ("'" ++ folderId ++ "' in parents") with e | files <;> simp
  · simp only [getFileMetadataHandler, hsrv, hid, hname]
    rcases hq : env.filesList ("name='" ++ body.fileName ++ "'") with e | files
    · simp [hname]
    · rcases files with _ | ⟨first, rest⟩ <;> simp [hname]

/-- Witness for C8: listing folder `folder9` against the concrete store
sends exactly the interpolated query. -/
theorem queries_built_by_direct_interpolation_witness :
    Call.list ("'" ++ "folder9" ++ "' in parents") ∈
      (listFilesHandler envW "folder9").1 :=
  (queries_built_by_direct_interpolation envW).2.1 "folder9" (by decide) rfl

end GDrive
